import Mathlib

/-!
Verification of the blog post template (`PostTemplate`), the page GraphQL
query (`pageQuery`), the SSR head-tag hook (`onRenderBody` in
`src/gatsby-ssr.js`), and the markdown content files of the firiho/Portfolio
repository, as a shallow embedding in Lean 4.

Rendered React markup is modelled as a tree of `Node`s; JS `Date`
construction and `toLocaleDateString` are modelled for the ISO date-only
strings the content uses; `lodash/kebabCase` is modelled for ASCII input.
-/

/-! ## Rendered markup -/

/-- A node of rendered markup: an element with a tag name, attributes and
children, a text node, or raw HTML injected via `dangerouslySetInnerHTML`. -/
inductive Node where
  | element (tag : String) (attrs : List (String × String)) (children : List Node)
  | text (s : String)
  | raw (html : String)

/-! ## Data model of a markdownRemark query result

The page query of the post template selects `html` and the frontmatter
fields `title`, `description`, `date`, `slug`, `tags`; these are exactly the
fields of `Frontmatter` and `MarkdownRemark` below. -/

/-- The frontmatter fields selected by `pageQuery`. -/
structure Frontmatter where
  title : String
  description : Option String
  date : String
  slug : Option String
  tags : Option (List String)
deriving DecidableEq

/-- A `markdownRemark` query result: the pre-parsed `html` body plus the
selected frontmatter. -/
structure MarkdownRemark where
  frontmatter : Frontmatter
  html : String
deriving DecidableEq

/-- The `data` prop handed to `PostTemplate`. -/
structure PostData where
  markdownRemark : MarkdownRemark
deriving DecidableEq

/-- The render environment of the browser/build machine: its default locale
and its timezone offset, as minutes to add to UTC to obtain local time
(UTC-8 is `-480`). `PostTemplate` hard-codes the string literal `en-US`
into `toLocaleDateString`, so the environment locale is never read; the
timezone offset is implicit in `toLocaleDateString`. -/
structure Env where
  locale : String
  tzOffsetMinutes : Int
deriving DecidableEq

/-! ## lodash kebabCase, modelled for ASCII input

`kebabCase(s)` is `words(deburr(s).replace(reApos, ''))` joined by `-` with
each word lowercased, where `reApos` removes apostrophes and `words` (with no
pattern argument) splits on the unicode word regex. The model below covers
ASCII input, where `deburr` is the identity: a word is a lowercase run with
an optional leading capital, an acronym run of capitals (leaving its last
capital to a following camel word), an ordinal such as `21st`, or a digit
run; all other characters separate words. On strings with no case or
digit/letter boundary the ascii and unicode splitters of lodash agree, so a
single splitter is used. -/

/-- Remove apostrophes (U+0027 and U+2019), as lodash `reApos` does before
word splitting. -/
def stripApostrophes (cs : List Char) : List Char :=
  cs.filter (fun c => !(c == Char.ofNat 39 || c == Char.ofNat 0x2019))

/-- Lookahead of the lowercase ordinal pattern: the next character may be
anything but an ASCII lowercase letter or digit. -/
def ordLookaheadLower : List Char → Bool
  | [] => true
  | c :: _ => !(c.isLower || c.isDigit)

/-- Lookahead of the uppercase ordinal pattern: the next character may be
anything but an ASCII uppercase letter or digit. -/
def ordLookaheadUpper : List Char → Bool
  | [] => true
  | c :: _ => !(c.isUpper || c.isDigit)

/-- The lowercase ordinal suffix demanded by the final digit of a digit run:
`1st`, `2nd`, `3rd`, and `th` for the other digits. -/
def ordSuffixFor (last : Char) : List Char :=
  if last == '1' then ['s', 't']
  else if last == '2' then ['n', 'd']
  else if last == '3' then ['r', 'd']
  else ['t', 'h']

/-- The uppercase ordinal suffix demanded by the final digit of a digit run. -/
def ordSuffixForUpper (last : Char) : List Char :=
  (ordSuffixFor last).map Char.toUpper

/-- Try to consume an ordinal suffix after a digit run ending in `last`:
returns the consumed suffix and the remainder when the suffix and its
lookahead match. The uppercase alternative is tried first, as in the lodash
regex alternation. -/
def ordinalTail (last : Char) (rest : List Char) : Option (List Char × List Char) :=
  match rest with
  | a :: b :: r =>
      if [a, b] == ordSuffixForUpper last && ordLookaheadUpper r then
        some ([a, b], r)
      else if [a, b] == ordSuffixFor last && ordLookaheadLower r then
        some ([a, b], r)
      else none
  | _ => none

/-- Word splitter (the ASCII fragment of the lodash unicode word regex),
with explicit fuel; every step consumes at least one character, so fuel
equal to the length of the input suffices. -/
def wordsGo : Nat → List Char → List (List Char)
  | 0, _ => []
  | _ + 1, [] => []
  | fuel + 1, c :: cs =>
      if c.isLower then
        let run := (c :: cs).takeWhile Char.isLower
        let rest := (c :: cs).dropWhile Char.isLower
        run :: wordsGo fuel rest
      else if c.isUpper then
        if cs.head?.any Char.isLower then
          let run := cs.takeWhile Char.isLower
          let rest := cs.dropWhile Char.isLower
          (c :: run) :: wordsGo fuel rest
        else
          let run := (c :: cs).takeWhile Char.isUpper
          let rest := (c :: cs).dropWhile Char.isUpper
          if rest.head?.any Char.isLower then
            run.dropLast :: wordsGo fuel (run.drop (run.length - 1) ++ rest)
          else
            run :: wordsGo fuel rest
      else if c.isDigit then
        let run := (c :: cs).takeWhile Char.isDigit
        let rest := (c :: cs).dropWhile Char.isDigit
        match ordinalTail (run.getLastD '0') rest with
        | some (suf, rest2) => (run ++ suf) :: wordsGo fuel rest2
        | none => run :: wordsGo fuel rest
      else
        wordsGo fuel cs

/-- lodash `words` on an ASCII string. -/
def lodashWords (s : String) : List String :=
  let cs := stripApostrophes s.data
  (wordsGo cs.length cs).map String.mk

/-- Join words with a dash separator, at the character-list level. -/
def joinDash : List (List Char) → List Char
  | [] => []
  | [w] => w
  | w :: ws => w ++ '-' :: joinDash ws

/-- lodash `kebabCase`, modelled for ASCII input: split into words, lowercase
each, join with dashes. -/
def kebabCase (s : String) : String :=
  let cs := stripApostrophes s.data
  String.mk (joinDash ((wordsGo cs.length cs).map (List.map Char.toLower)))

example : kebabCase "history" = "history" := by decide
example : kebabCase "Foo Bar" = "foo-bar" := by decide
example : kebabCase "fooBar" = "foo-bar" := by decide
example : kebabCase "FOOBar" = "foo-bar" := by decide
example : kebabCase "foo2bar" = "foo-2-bar" := by decide
example : kebabCase "21st Century" = "21st-century" := by decide
example : kebabCase "machine--learning" = "machine-learning" := by decide

/-! ## JS Date construction and en-US formatting

`PostTemplate` evaluates
`new Date(date).toLocaleDateString('en-US', { year: 'numeric', month: 'long', day: 'numeric' })`.
The frontmatter dates of blog posts are ISO date-only strings
(`YYYY-MM-DD`); per the ECMAScript specification such strings are parsed as
midnight UTC, out-of-range components give an invalid date, and strings not
in the ISO format fall back to implementation-defined parsing (modelled here
as invalid). `toLocaleDateString` renders the timestamp in the local
timezone of the render environment; for a midnight-UTC timestamp and a real
offset (strictly between -24h and +24h) the local civil date is the parsed
date itself for offsets ≥ 0 and the previous civil day for negative
offsets. -/

/-- A civil (proleptic Gregorian) calendar date. -/
structure CivilDate where
  year : Nat
  month : Nat
  day : Nat
deriving DecidableEq

/-- Gregorian leap-year rule. -/
def isLeapYear (y : Nat) : Bool :=
  (y % 4 == 0 && y % 100 != 0) || y % 400 == 0

/-- Number of days in a month. -/
def daysInMonth (y : Nat) (m : Nat) : Nat :=
  if m == 2 then (if isLeapYear y then 29 else 28)
  else if m == 4 || m == 6 || m == 9 || m == 11 then 30
  else 31

/-- Numeric value of a list of ASCII digit characters, `none` if a
character is not a digit. -/
def digitsVal (cs : List Char) : Option Nat :=
  if cs.all Char.isDigit then
    some (cs.foldl (fun a c => 10 * a + (c.toNat - 48)) 0)
  else none

/-- Assemble a civil date from year, month and day digit groups, validating
the component ranges as the ECMAScript ISO date parser does. -/
def mkCivil (ys ms ds : List Char) : Option CivilDate :=
  match digitsVal ys, digitsVal ms, digitsVal ds with
  | some y, some m, some d =>
      if 1 ≤ m && m ≤ 12 && 1 ≤ d && d ≤ daysInMonth y m then
        some ⟨y, m, d⟩
      else none
  | _, _, _ => none

/-- `new Date(s)` for the ISO date-only forms `YYYY-MM-DD`, `YYYY-MM` and
`YYYY` (parsed as midnight UTC); everything else is modelled as an invalid
date. -/
def jsDateParse (s : String) : Option CivilDate :=
  match s.data with
  | [a, b, c, d, '-', e, f, '-', g, h] => mkCivil [a, b, c, d] [e, f] [g, h]
  | [a, b, c, d, '-', e, f] => mkCivil [a, b, c, d] [e, f] ['0', '1']
  | [a, b, c, d] => mkCivil [a, b, c, d] ['0', '1'] ['0', '1']
  | _ => none

/-- The previous civil day. -/
def prevCivilDay : CivilDate → CivilDate
  | ⟨y, m, d⟩ =>
      if 2 ≤ d then ⟨y, m, d - 1⟩
      else if 2 ≤ m then ⟨y, m - 1, daysInMonth y (m - 1)⟩
      else ⟨y - 1, 12, 31⟩

/-- Local civil date of a midnight-UTC timestamp in a timezone whose offset
is `tz` minutes (faithful for real offsets, `-1440 < tz < 1440`): negative
offsets land on the previous civil day. -/
def localCivilDate (tz : Int) (cd : CivilDate) : CivilDate :=
  if tz < 0 then prevCivilDay cd else cd

/-- Fuel-driven accumulator loop producing the decimal digits of `k`. -/
def natCharsGo : Nat → Nat → List Char → List Char
  | 0, _, acc => acc
  | fuel + 1, k, acc =>
      if k < 10 then Char.ofNat (48 + k % 10) :: acc
      else natCharsGo fuel (k / 10) (Char.ofNat (48 + k % 10) :: acc)

/-- Decimal digits of a natural number, as characters. -/
def natChars (n : Nat) : List Char := natCharsGo (n + 1) n []

/-- Decimal numeral string of a natural number. -/
def natStr (n : Nat) : String := String.mk (natChars n)

/-- en-US long month names, 1-indexed. -/
def monthLongName : Nat → String
  | 1 => "January"
  | 2 => "February"
  | 3 => "March"
  | 4 => "April"
  | 5 => "May"
  | 6 => "June"
  | 7 => "July"
  | 8 => "August"
  | 9 => "September"
  | 10 => "October"
  | 11 => "November"
  | 12 => "December"
  | _ => ""

/-- en-US `{ year: 'numeric', month: 'long', day: 'numeric' }` date format:
long month name, numeric day, comma, numeric year. -/
def formatEnUSLong (cd : CivilDate) : String :=
  monthLongName cd.month ++ " " ++ natStr cd.day ++ ", " ++ natStr cd.year

/-- `d.toLocaleDateString('en-US', { year: 'numeric', month: 'long', day: 'numeric' })`
for a date-only timestamp `d` in an environment with timezone offset `tz`
minutes; an invalid date renders as `Invalid Date`. -/
def toLocaleDateStringEnUS (od : Option CivilDate) (tz : Int) : String :=
  match od with
  | none => "Invalid Date"
  | some cd => formatEnUSLong (localCivilDate tz cd)

/-- The date string rendered by `PostTemplate`:
`new Date(date).toLocaleDateString('en-US', ...)`. -/
def formatPostDate (date : String) (tz : Int) : String :=
  toLocaleDateStringEnUS (jsDateParse date) tz

example : formatPostDate "2023-10-05" 0 = "October 5, 2023" := by decide
example : formatPostDate "2023-10-05" (-480) = "October 4, 2023" := by decide
example : formatPostDate "2024-01-01" (-60) = "December 31, 2023" := by decide
example : formatPostDate "2023-10-05" 540 = "October 5, 2023" := by decide
example : formatPostDate "not a date" 0 = "Invalid Date" := by decide
example : formatPostDate "2023-02-29" 0 = "Invalid Date" := by decide

/-! ## The PostTemplate render

A faithful rendering of the JSX returned by `PostTemplate`: a `Helmet`
title plus a markup tree. Styled components render as their underlying
elements (`StyledPostContainer` is a `main`, `StyledPostHeader` a `header`,
`StyledPostContent` a `div`); `Layout` is kept as an opaque wrapper element
receiving the `location` prop. -/

/-- The result of rendering `PostTemplate`: the document-head title set via
`Helmet` and the markup tree. -/
structure RenderedPost where
  helmetTitle : String
  body : Node

/-- The breadcrumb block: arrow and a back-link to `/blog`. -/
def breadcrumbNode : Node :=
  Node.element "span" [("className", "breadcrumb")]
    [Node.element "span" [("className", "arrow")] [Node.text "←"],
     Node.element "Link" [("to", "/blog")] [Node.text "Back to Blog"]]

/-- One rendered tag link:
`<Link to={/blog/tags/${kebabCase(tag)}/} className="tag">#{tag}</Link>`. -/
def tagLink (tag : String) : Node :=
  Node.element "Link"
    [("to", "/blog/tags/" ++ kebabCase tag ++ "/"), ("className", "tag")]
    [Node.text ("#" ++ tag)]

/-- The JSX expression `{tags && tags.length > 0 && tags.map(...)}`: a
falsy (`null`/`undefined`) tags value or an empty list renders nothing. -/
def tagLinkNodes : Option (List String) → List Node
  | none => []
  | some ts => if ts.length > 0 then ts.map tagLink else []

/-- The subtitle paragraph: formatted date in a `<time>` element, a
separator, then the tag links. -/
def subtitleNode (date : String) (tags : Option (List String)) (tz : Int) : Node :=
  Node.element "p" [("className", "subtitle")]
    ([Node.element "time" [] [Node.text (formatPostDate date tz)],
      Node.element "span" [] [Node.text " — "]]
     ++ tagLinkNodes tags)

/-- The post header: `h1` title and subtitle paragraph. -/
def postHeaderNode (title date : String) (tags : Option (List String)) (tz : Int) : Node :=
  Node.element "header" []
    [Node.element "h1" [("className", "medium-heading")] [Node.text title],
     subtitleNode date tags tz]

/-- `PostTemplate({ data, location })` rendered in environment `env`:
destructures `frontmatter` and `html` from `data.markdownRemark`, sets the
Helmet title, and renders breadcrumb, header and the post content container
whose `dangerouslySetInnerHTML` receives `html`. The environment's locale
is never consulted (the code hard-codes `en-US`); its timezone offset
enters only through `toLocaleDateString`. -/
def PostTemplate (data : PostData) (location : String) (env : Env) : RenderedPost :=
  let fm := data.markdownRemark.frontmatter
  { helmetTitle := fm.title
    body := Node.element "Layout" [("location", location)]
      [Node.element "main" []
        [breadcrumbNode,
         postHeaderNode fm.title fm.date fm.tags env.tzOffsetMinutes,
         Node.element "div" [] [Node.raw data.markdownRemark.html]]] }

/-! ### Extractors over the rendered tree -/

/-- The children of the subtitle paragraph of a rendered post. -/
def RenderedPost.subtitleChildren (r : RenderedPost) : List Node :=
  match r.body with
  | Node.element _ _ [Node.element _ _
      [_, Node.element _ _ [_, Node.element _ _ subtitle], _]] => subtitle
  | _ => []

/-- The rendered tag links: the subtitle children after the `<time>`
element and the separator. -/
def RenderedPost.tagLinks (r : RenderedPost) : List Node :=
  r.subtitleChildren.drop 2

/-- The `<time>` element of a rendered post. -/
def RenderedPost.timeNode (r : RenderedPost) : Option Node :=
  r.subtitleChildren.head?

/-- The text content of the `<time>` element of a rendered post. -/
def RenderedPost.timeText (r : RenderedPost) : Option String :=
  match r.timeNode with
  | some (Node.element "time" [] [Node.text s]) => some s
  | _ => none

/-- The raw HTML string injected into the post content container via
`dangerouslySetInnerHTML`. -/
def RenderedPost.injectedHtml (r : RenderedPost) : Option String :=
  match r.body with
  | Node.element _ _ [Node.element _ _
      [_, _, Node.element _ _ [Node.raw h]]] => some h
  | _ => none

/-- The seoul blog post of `src/content/posts/seoul/index.md`, as queried. -/
def seoulPost : PostData :=
  { markdownRemark :=
    { frontmatter :=
      { title := "Seoul Exploration"
        description := some "A collection of photos from my historical sites exploration day in Seoul, South Korea"
        date := "2023-10-05"
        slug := some "/pensieve/seoul"
        tags := some ["history", "travel", "minerva"] }
      html := "<h2>Minerva x Sookmyung buddy program</h2>" } }

example :
    (PostTemplate seoulPost "/pensieve/seoul" ⟨"en-US", 0⟩).timeText
      = some "October 5, 2023" := by decide
example :
    (PostTemplate seoulPost "/pensieve/seoul" ⟨"en-US", -480⟩).timeText
      = some "October 4, 2023" := by decide
example :
    (PostTemplate seoulPost "/pensieve/seoul" ⟨"en-US", 0⟩).injectedHtml
      = some "<h2>Minerva x Sookmyung buddy program</h2>" := by decide
example :
    (PostTemplate seoulPost "/pensieve/seoul" ⟨"en-US", 0⟩).tagLinks.length = 3 := by decide

/-! ## The page GraphQL query

`pageQuery` filters the `markdownRemark` nodes of the data layer on
`frontmatter: { slug: { eq: $path } }` and selects `html` plus the
frontmatter fields `title`, `description`, `date`, `slug`, `tags`. The data
layer holds more per node (the seoul post also carries a `draft` flag, and
every remark node has a raw markdown body); the selection projects those
away. -/

/-- A post's frontmatter as present in the data layer, including the
`draft` field that the page query does not select. -/
structure LayerFrontmatter where
  title : String
  description : Option String
  date : String
  draft : Option Bool
  slug : Option String
  tags : Option (List String)
deriving DecidableEq

/-- A `markdownRemark` node of the data layer, with fields beyond the
page query's selection set. -/
structure LayerNode where
  frontmatter : LayerFrontmatter
  html : String
  rawMarkdownBody : String
deriving DecidableEq

/-- The selection set of `pageQuery`: `html` and the frontmatter fields
`title`, `description`, `date`, `slug`, `tags` — nothing else. -/
def selectPostFields (n : LayerNode) : MarkdownRemark :=
  { frontmatter :=
    { title := n.frontmatter.title
      description := n.frontmatter.description
      date := n.frontmatter.date
      slug := n.frontmatter.slug
      tags := n.frontmatter.tags }
    html := n.html }

/-- `pageQuery` against a data layer `nodes`, with the page `$path` as
variable: the single `markdownRemark` node whose frontmatter `slug` equals
the path, projected to the selection set. -/
def pageQuery (nodes : List LayerNode) (path : String) : Option MarkdownRemark :=
  (nodes.find? (fun n => n.frontmatter.slug == some path)).map selectPostFields

/-! ## gatsby-ssr.js -/

/-- The inline gtag bootstrap script of the second analytics script tag. -/
def gtagInitScript : String :=
  "\n          window.dataLayer = window.dataLayer || [];\n          function gtag()\x7bdataLayer.push(arguments);\x7d\n          gtag(\x27js\x27, new Date());\n          gtag(\x27config\x27, \x27G-KBJ3HD59L2\x27);\n        "

/-- The fixed sequence of head elements of `src/gatsby-ssr.js`: the
apple-touch-icon link, the 32x32 and 16x16 icon links, the web manifest
link, the mask-icon link, the msapplication-TileColor and theme-color meta
tags, and the two analytics script tags. The React `key` prop and the
boolean `async` prop are recorded as attributes; the
`dangerouslySetInnerHTML` of the last script is its raw content. -/
def gatsbySsrHeadComponents : List Node :=
  [Node.element "link"
     [("key", "apple-touch-icon"), ("rel", "apple-touch-icon"),
      ("sizes", "180x180"), ("href", "/apple-touch-icon.png")] [],
   Node.element "link"
     [("key", "icon32"), ("rel", "icon"), ("type", "image/png"),
      ("sizes", "32x32"), ("href", "/favicon-32x32.png")] [],
   Node.element "link"
     [("key", "icon16"), ("rel", "icon"), ("type", "image/png"),
      ("sizes", "16x16"), ("href", "/favicon-16x16.png")] [],
   Node.element "link"
     [("key", "manifest"), ("rel", "manifest"), ("href", "/site.webmanifest")] [],
   Node.element "link"
     [("key", "mask-icon"), ("rel", "mask-icon"),
      ("href", "/safari-pinned-tab.svg"), ("color", "#5bbad5")] [],
   Node.element "meta"
     [("key", "msapplication-TileColor"), ("name", "msapplication-TileColor"),
      ("content", "#da532c")] [],
   Node.element "meta"
     [("key", "theme-color"), ("name", "theme-color"), ("content", "#ffffff")] [],
   Node.element "script"
     [("key", "gtag"), ("async", "true"),
      ("src", "https://www.googletagmanager.com/gtag/js?id=G-KBJ3HD59L2")] [],
   Node.element "script" [("key", "gtag-init")] [Node.raw gtagInitScript]]

/-- One invocation of `onRenderBody` for the page at `_pathname`, returning
the arguments of the `setHeadComponents` calls it makes, in order. The
function destructures only `setHeadComponents` from its argument and calls
it once with the fixed list, reading nothing about the page. -/
def onRenderBody (_pathname : String) : List (List Node) :=
  [gatsbySsrHeadComponents]

/-! ## Markdown content files

Each markdown content file of the repository, with whether it opens with a
`---`-delimited frontmatter block and the keys that block defines, in
order. The last three entries are the markdown documents embedded in the
unnamed source files. -/

/-- A markdown content file: its path (a placeholder for the unnamed
files), whether a delimited frontmatter block precedes the body, and the
keys of that block. -/
structure ContentFile where
  path : String
  delimitedFrontmatter : Bool
  frontmatterKeys : List String
deriving DecidableEq

/-- The markdown content files of the repository. -/
def contentFiles : List ContentFile :=
  [⟨"src/content/posts/seoul/index.md", true,
    ["title", "description", "date", "draft", "slug", "tags"]⟩,
   ⟨"src/content/projects/Dreamify.md", true,
    ["date", "title", "github", "tech", "company", "showInProjects",
     "android", "ios", "external"]⟩,
   ⟨"src/content/projects/Mood-io.md", true,
    ["date", "title", "github", "tech", "company", "showInProjects",
     "android", "ios", "external"]⟩,
   ⟨"src/content/jobs/eBay/index.md", true,
    ["date", "title", "company", "location", "range", "url"]⟩,
   ⟨"src/content/jobs/UL Solutions/index.md", true,
    ["date", "title", "company", "location", "range", "url"]⟩,
   ⟨"src/content/featured/lit/index.md", true,
    ["date", "title", "cover", "github", "external", "cta", "tech"]⟩,
   ⟨"src/content/featured/Dreamify/index.md", true,
    ["date", "title", "cover", "github", "external", "cta", "tech"]⟩,
   ⟨"src/unnamed/part_000 (embedded markdown document)", true,
    ["date", "title", "cover", "github", "external", "cta", "tech"]⟩,
   ⟨"src/unnamed/part_001 (embedded markdown document)", true,
    ["date", "title", "company", "location", "range", "url"]⟩,
   ⟨"src/unnamed/part_002 (embedded markdown document)", true,
    ["date", "title", "cover", "github", "external", "cta", "tech"]⟩]

/-! ## Concrete inputs used by witnesses and counterexamples -/

/-- A post whose pre-parsed html contains a script element. -/
def scriptedPost : PostData :=
  { markdownRemark :=
    { frontmatter :=
      { title := "Scripted"
        description := none
        date := "2023-10-05"
        slug := some "/pensieve/scripted"
        tags := none }
      html := "<p>hi</p><script>alert(1)</script>" } }

/-- A post whose frontmatter has no tags field. -/
def untaggedPost : PostData :=
  { markdownRemark :=
    { frontmatter :=
      { title := "Untagged"
        description := none
        date := "2023-10-05"
        slug := some "/pensieve/untagged"
        tags := none }
      html := "<p>body</p>" } }

/-- The seoul post as a data-layer node, with the unselected `draft` field
and raw markdown body present. -/
def seoulLayerNode : LayerNode :=
  { frontmatter :=
    { title := "Seoul Exploration"
      description := some "A collection of photos from my historical sites exploration day in Seoul, South Korea"
      date := "2023-10-05"
      draft := some false
      slug := some "/pensieve/seoul"
      tags := some ["history", "travel", "minerva"] }
    html := "<h2>Minerva x Sookmyung buddy program</h2>"
    rawMarkdownBody := "## Minerva x Sookmyung buddy program" }

/-- Whether `pat` occurs as a contiguous sublist. -/
def listContainsSub (pat : List Char) : List Char → Bool
  | [] => pat.isPrefixOf []
  | c :: cs => pat.isPrefixOf (c :: cs) || listContainsSub pat cs

/-- Modelled from the spec: the spec calls the injected HTML "sanitized",
but no sanitizer exists in the repository; sanitized output is modelled
minimally as output containing no script element, which any sanitization
step removes. -/
def htmlIsSanitized (s : String) : Bool :=
  !(listContainsSub "<script".data s.data)

/-- The (tag name, React key) of a head element. -/
def nodeTagAndKey : Node → String × String
  | Node.element t attrs _ =>
      (t, (((attrs.find? (fun a => a.fst == "key")).map Prod.snd).getD ""))
  | _ => ("", "")

/-! ## Claims -/

/-- C1 counterexample: `PostTemplate` passes the raw `html` field of
`data.markdownRemark` to `dangerouslySetInnerHTML` unchanged — on a post
whose html holds a script element, the injected string is exactly that raw
html and is not sanitized, so no sanitization step is applied. -/
theorem postTemplate_injects_unsanitized_raw_html :
    (PostTemplate scriptedPost "/pensieve/scripted" ⟨"en-US", 0⟩).injectedHtml
        = some scriptedPost.markdownRemark.html
      ∧ htmlIsSanitized scriptedPost.markdownRemark.html = false := by
  decide

/-- C1 (amended): the string injected into the post content container via
`dangerouslySetInnerHTML` is exactly the raw `html` field of
`data.markdownRemark`, unchanged; `PostTemplate` applies no sanitization
step. -/
theorem postTemplate_injectedHtml_is_raw
    (data : PostData) (location : String) (env : Env) :
    (PostTemplate data location env).injectedHtml
      = some data.markdownRemark.html := rfl

/-- C2: for a post whose frontmatter tags list is non-empty, the rendered
tag links are exactly the tags mapped, in order, to links whose target is
`/blog/tags/` ++ kebab-case of the tag ++ `/` and whose label is `#` ++ the
tag; their number equals the length of the tags list. -/
theorem postTemplate_tagLinks_map
    (data : PostData) (location : String) (env : Env) (ts : List String)
    (htags : data.markdownRemark.frontmatter.tags = some ts) (hne : ts ≠ []) :
    (PostTemplate data location env).tagLinks
        = ts.map (fun tag =>
            Node.element "Link"
              [("to", "/blog/tags/" ++ kebabCase tag ++ "/"), ("className", "tag")]
              [Node.text ("#" ++ tag)])
      ∧ (PostTemplate data location env).tagLinks.length = ts.length := by
  have hlen : 0 < ts.length := List.length_pos.mpr hne
  have h1 : (PostTemplate data location env).tagLinks
      = tagLinkNodes data.markdownRemark.frontmatter.tags := rfl
  rw [h1, htags]
  have h2 : tagLinkNodes (some ts) = ts.map tagLink := by
    simp only [tagLinkNodes]
    rw [if_pos hlen]
  rw [h2]
  exact ⟨rfl, by simp⟩

/-- C2 witness: the seoul post's three tags render as three links in
order. -/
theorem postTemplate_tagLinks_map_witness :
    (PostTemplate seoulPost "/pensieve/seoul" ⟨"en-US", 0⟩).tagLinks
        = ["history", "travel", "minerva"].map (fun tag =>
            Node.element "Link"
              [("to", "/blog/tags/" ++ kebabCase tag ++ "/"), ("className", "tag")]
              [Node.text ("#" ++ tag)])
      ∧ (PostTemplate seoulPost "/pensieve/seoul" ⟨"en-US", 0⟩).tagLinks.length
        = (["history", "travel", "minerva"] : List String).length :=
  postTemplate_tagLinks_map seoulPost "/pensieve/seoul" ⟨"en-US", 0⟩
    ["history", "travel", "minerva"] rfl (by decide)

/-- C3: `PostTemplate` formats the frontmatter date by constructing a Date
from the date string; whenever that construction succeeds, the `<time>`
element holds the en-US rendering of the resulting local civil date — the
long month name, the numeric day, a comma, and the numeric year. -/
theorem postTemplate_time_enUS_long_format
    (data : PostData) (location : String) (env : Env) (cd : CivilDate)
    (hparse : jsDateParse data.markdownRemark.frontmatter.date = some cd) :
    (PostTemplate data location env).timeNode
      = some (Node.element "time" []
          [Node.text
            (monthLongName (localCivilDate env.tzOffsetMinutes cd).month ++ " "
              ++ natStr (localCivilDate env.tzOffsetMinutes cd).day ++ ", "
              ++ natStr (localCivilDate env.tzOffsetMinutes cd).year)]) := by
  have h1 : (PostTemplate data location env).timeNode
      = some (Node.element "time" []
          [Node.text (formatPostDate data.markdownRemark.frontmatter.date
            env.tzOffsetMinutes)]) := rfl
  rw [h1]
  unfold formatPostDate
  rw [hparse]
  rfl

/-- C3 witness: the seoul post's date `2023-10-05` renders, in a UTC
environment, as `October 5, 2023` inside the `<time>` element. -/
theorem postTemplate_time_enUS_long_format_witness :
    (PostTemplate seoulPost "/pensieve/seoul" ⟨"en-US", 0⟩).timeNode
      = some (Node.element "time" []
          [Node.text
            (monthLongName (localCivilDate 0 ⟨2023, 10, 5⟩).month ++ " "
              ++ natStr (localCivilDate 0 ⟨2023, 10, 5⟩).day ++ ", "
              ++ natStr (localCivilDate 0 ⟨2023, 10, 5⟩).year)]) :=
  postTemplate_time_enUS_long_format seoulPost "/pensieve/seoul" ⟨"en-US", 0⟩
    ⟨2023, 10, 5⟩ (by decide)

/-- C4: whenever the page query returns a result for a path, that result is
the projection of a data-layer node whose frontmatter slug equals the path,
and it carries exactly that node's html body and its frontmatter title,
description, date, slug and tags. -/
theorem pageQuery_selects_matching_node
    (nodes : List LayerNode) (path : String) (r : MarkdownRemark)
    (h : pageQuery nodes path = some r) :
    ∃ n ∈ nodes,
      n.frontmatter.slug = some path
        ∧ r.html = n.html
        ∧ r.frontmatter.title = n.frontmatter.title
        ∧ r.frontmatter.description = n.frontmatter.description
        ∧ r.frontmatter.date = n.frontmatter.date
        ∧ r.frontmatter.slug = n.frontmatter.slug
        ∧ r.frontmatter.tags = n.frontmatter.tags := by
  unfold pageQuery at h
  cases hf : nodes.find? (fun n => n.frontmatter.slug == some path) with
  | none => rw [hf] at h; simp at h
  | some n =>
      rw [hf] at h
      have hr : r = selectPostFields n := by simpa using h.symm
      subst hr
      have hslug : n.frontmatter.slug = some path := by
        have hb := List.find?_some hf
        simpa using hb
      exact ⟨n, List.mem_of_find?_eq_some hf, hslug, rfl, rfl, rfl, rfl, rfl, rfl⟩

/-- C4 witness: against a data layer holding the seoul node, the query for
`/pensieve/seoul` selects it. -/
theorem pageQuery_selects_matching_node_witness :
    ∃ n ∈ [seoulLayerNode],
      n.frontmatter.slug = some "/pensieve/seoul"
        ∧ (selectPostFields seoulLayerNode).html = n.html
        ∧ (selectPostFields seoulLayerNode).frontmatter.title = n.frontmatter.title
        ∧ (selectPostFields seoulLayerNode).frontmatter.description = n.frontmatter.description
        ∧ (selectPostFields seoulLayerNode).frontmatter.date = n.frontmatter.date
        ∧ (selectPostFields seoulLayerNode).frontmatter.slug = n.frontmatter.slug
        ∧ (selectPostFields seoulLayerNode).frontmatter.tags = n.frontmatter.tags :=
  pageQuery_selects_matching_node [seoulLayerNode] "/pensieve/seoul"
    (selectPostFields seoulLayerNode) (by decide)

/-- C5: every invocation of `onRenderBody` calls `setHeadComponents`
exactly once, with the same fixed nine-element head sequence (icon links,
manifest, mask-icon, the two color meta tags, and the two analytics
scripts), independently of the page being rendered. -/
theorem onRenderBody_single_fixed_call (pathname : String) :
    onRenderBody pathname = [gatsbySsrHeadComponents]
      ∧ (onRenderBody pathname).length = 1
      ∧ (∀ other : String, onRenderBody pathname = onRenderBody other)
      ∧ gatsbySsrHeadComponents.map nodeTagAndKey
          = [("link", "apple-touch-icon"), ("link", "icon32"), ("link", "icon16"),
             ("link", "manifest"), ("link", "mask-icon"),
             ("meta", "msapplication-TileColor"), ("meta", "theme-color"),
             ("script", "gtag"), ("script", "gtag-init")] :=
  ⟨rfl, rfl, fun _ => rfl, by decide⟩

/-- The eBay job content file. -/
def ebayJobFile : ContentFile :=
  ⟨"src/content/jobs/eBay/index.md", true,
   ["date", "title", "company", "location", "range", "url"]⟩

/-- C6 counterexample: the eBay job file is a markdown content file of the
repository whose frontmatter block has no `tags` key. -/
theorem ebay_frontmatter_has_no_tags_key :
    ebayJobFile ∈ contentFiles
      ∧ "tags" ∉ ebayJobFile.frontmatterKeys := by
  decide

/-- C6 (amended): every markdown content file begins with a delimited
frontmatter block containing `title` and `date` keys; a `tags` key is
present only in the blog post file. -/
theorem contentFiles_frontmatter_keys (f : ContentFile) (hf : f ∈ contentFiles) :
    f.delimitedFrontmatter = true
      ∧ "title" ∈ f.frontmatterKeys
      ∧ "date" ∈ f.frontmatterKeys
      ∧ ("tags" ∈ f.frontmatterKeys ↔ f.path = "src/content/posts/seoul/index.md") := by
  fin_cases hf <;> refine ⟨rfl, by decide, by decide, by decide⟩

/-- C6 witness: the seoul post file satisfies the amended invariant. -/
theorem contentFiles_frontmatter_keys_witness :
    (⟨"src/content/posts/seoul/index.md", true,
      ["title", "description", "date", "draft", "slug", "tags"]⟩ : ContentFile).delimitedFrontmatter = true
      ∧ "title" ∈ (⟨"src/content/posts/seoul/index.md", true,
          ["title", "description", "date", "draft", "slug", "tags"]⟩ : ContentFile).frontmatterKeys
      ∧ "date" ∈ (⟨"src/content/posts/seoul/index.md", true,
          ["title", "description", "date", "draft", "slug", "tags"]⟩ : ContentFile).frontmatterKeys
      ∧ ("tags" ∈ (⟨"src/content/posts/seoul/index.md", true,
          ["title", "description", "date", "draft", "slug", "tags"]⟩ : ContentFile).frontmatterKeys
          ↔ (⟨"src/content/posts/seoul/index.md", true,
              ["title", "description", "date", "draft", "slug", "tags"]⟩ : ContentFile).path
            = "src/content/posts/seoul/index.md") :=
  contentFiles_frontmatter_keys
    ⟨"src/content/posts/seoul/index.md", true,
     ["title", "description", "date", "draft", "slug", "tags"]⟩ (by decide)

/-- C7: when the frontmatter tags field is absent or the empty list, the
post still renders: the Helmet title, the `<time>` element and the injected
body are all produced, and zero tag links are rendered. -/
theorem postTemplate_renders_without_tags
    (data : PostData) (location : String) (env : Env)
    (h : data.markdownRemark.frontmatter.tags = none
         ∨ data.markdownRemark.frontmatter.tags = some []) :
    (PostTemplate data location env).tagLinks = []
      ∧ (PostTemplate data location env).helmetTitle
        = data.markdownRemark.frontmatter.title
      ∧ (PostTemplate data location env).injectedHtml
        = some data.markdownRemark.html
      ∧ (PostTemplate data location env).timeText
        = some (formatPostDate data.markdownRemark.frontmatter.date
            env.tzOffsetMinutes) := by
  have h1 : (PostTemplate data location env).tagLinks
      = tagLinkNodes data.markdownRemark.frontmatter.tags := rfl
  rcases h with h | h <;> rw [h1, h] <;> exact ⟨rfl, rfl, rfl, rfl⟩

/-- C7 witness: a post with no tags field renders title, date and body with
zero tag links. -/
theorem postTemplate_renders_without_tags_witness :
    (PostTemplate untaggedPost "/pensieve/untagged" ⟨"en-US", 0⟩).tagLinks = []
      ∧ (PostTemplate untaggedPost "/pensieve/untagged" ⟨"en-US", 0⟩).helmetTitle
        = untaggedPost.markdownRemark.frontmatter.title
      ∧ (PostTemplate untaggedPost "/pensieve/untagged" ⟨"en-US", 0⟩).injectedHtml
        = some untaggedPost.markdownRemark.html
      ∧ (PostTemplate untaggedPost "/pensieve/untagged" ⟨"en-US", 0⟩).timeText
        = some (formatPostDate untaggedPost.markdownRemark.frontmatter.date 0) :=
  postTemplate_renders_without_tags untaggedPost "/pensieve/untagged" ⟨"en-US", 0⟩
    (Or.inl rfl)

/-- C8: the document-head title set via Helmet is exactly the frontmatter
title, with no transformation. -/
theorem postTemplate_helmetTitle_exact
    (data : PostData) (location : String) (env : Env) :
    (PostTemplate data location env).helmetTitle
      = data.markdownRemark.frontmatter.title := rfl

/-- C9 counterexample: two renders of the seoul post with equal `data` and
`location` inputs but environments in different timezones produce different
markup — the rendered date shifts from October 5 to October 4, so the
output is not identical across renders and does not depend only on the
data, the location and the fixed en-US locale. -/
theorem postTemplate_output_depends_on_timezone :
    (PostTemplate seoulPost "/pensieve/seoul" ⟨"en-US", 0⟩).timeText
        = some "October 5, 2023"
      ∧ (PostTemplate seoulPost "/pensieve/seoul" ⟨"en-US", -480⟩).timeText
        = some "October 4, 2023"
      ∧ PostTemplate seoulPost "/pensieve/seoul" ⟨"en-US", 0⟩
        ≠ PostTemplate seoulPost "/pensieve/seoul" ⟨"en-US", -480⟩ :=
  ⟨by decide, by decide,
   fun h => absurd (congrArg RenderedPost.timeText h) (by decide)⟩

/-- C9 (amended): `PostTemplate` is deterministic given the environment's
timezone offset: two renders with equal frontmatter title, date and tags,
equal html body, equal location and equal timezone offset produce identical
markup, even when the environments' locales differ — the locale is fixed to
en-US rather than taken from the render environment. The rendered date
does, however, depend on the environment's timezone offset. -/
theorem postTemplate_deterministic_given_timezone
    (d d' : PostData) (location : String) (e e' : Env)
    (htz : e.tzOffsetMinutes = e'.tzOffsetMinutes)
    (htitle : d.markdownRemark.frontmatter.title
      = d'.markdownRemark.frontmatter.title)
    (hdate : d.markdownRemark.frontmatter.date
      = d'.markdownRemark.frontmatter.date)
    (htags : d.markdownRemark.frontmatter.tags
      = d'.markdownRemark.frontmatter.tags)
    (hhtml : d.markdownRemark.html = d'.markdownRemark.html) :
    PostTemplate d location e = PostTemplate d' location e' := by
  unfold PostTemplate
  dsimp only
  rw [htitle, hdate, htags, hhtml, htz]

/-- C9 witness: renders of the seoul post in a UTC en-US environment and a
UTC fr-FR environment coincide. -/
theorem postTemplate_deterministic_given_timezone_witness :
    PostTemplate seoulPost "/pensieve/seoul" ⟨"en-US", 0⟩
      = PostTemplate seoulPost "/pensieve/seoul" ⟨"fr-FR", 0⟩ :=
  postTemplate_deterministic_given_timezone seoulPost seoulPost "/pensieve/seoul"
    ⟨"en-US", 0⟩ ⟨"fr-FR", 0⟩ rfl rfl rfl rfl rfl
